import Mathlib

/-!
Verification of the demo lifecycle controllers of the BUILD-IT-API-FETCHING
repository (an educational React app teaching HTTP-fetching patterns).

The source is shallowly embedded as follows.

* Each page's React state hooks become a Lean structure (one field per
  `useState`).  The `setX` calls are field updates; `setLogs(prev => ...)`
  is a functional update, so modelling every setter as an immediate field
  update is faithful.
* The browser event loop is modelled by a generic scheduler: a run keeps a
  time-sorted agenda of pending callbacks (`setTimeout` callbacks and the
  resumption points of `await`s, which are promise continuations).  `schedule`
  inserts a task keeping the agenda sorted by (fire time, creation order) —
  exactly the browser's timer-firing order; `execF` repeatedly fires the
  earliest pending task.
* Network latency is a parameter: the `fetch` promise resolves (or rejects)
  `tNet` ms after the call, the `response.json()` / `response.text()`
  promises a further `jd` ms later.  The response itself (HTTP status plus
  body) is an environment parameter of type `FetchOutcome`.
* A JavaScript expression such as `data[0].url` is evaluated by `jsIndex0` /
  `jsField`, which return `Except` so that a `TypeError` (reading a property
  of `undefined`/`null`) is visible; a `TypeError` raised inside a timer
  callback is outside every `try`/`catch` of the source, so the scheduler
  records it in an `uncaught` counter.
-/

/-- UI status of a demo run: `useState("idle")` in every page. -/
inductive Status where
  | idle
  | loading
  | success
  | error
deriving DecidableEq, Repr

/-- Log entry kinds used by `addLog(msg, type)` in every page. -/
inductive LogType where
  | info
  | success
  | warning
  | error
deriving DecidableEq, Repr

/-- One element of the `logs` list: `{ message, type, timestamp }`
(`FetchBasics` calls the text field `message`, the other pages `msg`). -/
structure LogEntry where
  message : String
  type : LogType
  timestamp : Nat
deriving DecidableEq, Repr

/-- `addLog` of every page: `setLogs(prev => [...prev, { message, type, timestamp: Date.now() }])`. -/
def addLog (now : Nat) (message : String) (type : LogType) (logs : List LogEntry) :
    List LogEntry :=
  logs ++ [⟨message, type, now⟩]

/-- JavaScript values a parsed JSON body can be (plus `undefined`,
which property access can produce). -/
inductive Json where
  | null
  | undefined
  | bool (b : Bool)
  | num (n : Int)
  | str (s : String)
  | arr (xs : List Json)
  | obj (fields : List (String × Json))

/-- First binding of a key in a JS object literal. -/
def lookupField (key : String) : List (String × Json) → Option Json
  | [] => none
  | (k, v) :: fs => if k = key then some v else lookupField key fs

/-- JS evaluation of `x[0]`: throws `TypeError` on `null`/`undefined`,
indexes arrays and strings, reads property `"0"` of objects, and yields
`undefined` otherwise. -/
def jsIndex0 : Json → Except String Json
  | .null => .error "TypeError"
  | .undefined => .error "TypeError"
  | .arr [] => .ok .undefined
  | .arr (x :: _) => .ok x
  | .obj fs => .ok ((lookupField "0" fs).getD .undefined)
  | .str s =>
      match s.data with
      | [] => .ok .undefined
      | c :: _ => .ok (.str (String.mk [c]))
  | .bool _ => .ok .undefined
  | .num _ => .ok .undefined

/-- JS evaluation of `x.key`: throws `TypeError` on `null`/`undefined`,
reads the property of objects, and yields `undefined` otherwise. -/
def jsField (key : String) : Json → Except String Json
  | .null => .error "TypeError"
  | .undefined => .error "TypeError"
  | .obj fs => .ok ((lookupField key fs).getD .undefined)
  | .arr _ => .ok .undefined
  | .str _ => .ok .undefined
  | .bool _ => .ok .undefined
  | .num _ => .ok .undefined

/-- JS evaluation of `data[0].url`, as written in the success callbacks of
`FetchBasics`, `PromisesAsync` and `XhrLegacy`. -/
def evalFirstUrl (data : Json) : Except String Json :=
  jsIndex0 data >>= jsField "url"

/-- How the body promise of a response resolves: `response.json()` either
rejects (`invalid`, malformed JSON) or resolves with a parsed value. -/
inductive BodyRes where
  | invalid (errMessage : String)
  | json (v : Json)

/-- How the `fetch(...)` promise resolves: rejection (connectivity failure,
e.g. `TypeError: Failed to fetch`) or a response with an HTTP status code
and a body. -/
inductive FetchOutcome where
  | reject (errName : String) (errMessage : String)
  | resolve (status : Nat) (body : BodyRes)

/-- `response.ok` of the fetch API: status in the range 200–299. -/
def okStatus (status : Nat) : Bool :=
  200 ≤ status && status ≤ 299

/-- JS `String.prototype.startsWith`. -/
def jsStartsWith (s pat : String) : Bool :=
  pat.data.isPrefixOf s.data

/-- JS `String.prototype.includes`. -/
def jsIncludes (s pat : String) : Bool :=
  s.data.tails.any (fun t => pat.data.isPrefixOf t)

/-! ## The event-loop scheduler -/

/-- A pending callback: fire time, creation sequence number (for the FIFO
order among equal fire times) and the callback itself. -/
structure PTask (κ : Type) where
  time : Nat
  seq : Nat
  cb : κ

/-- A page's whole runtime: current time, sequence counter, the pending
agenda (time-sorted), the React state and a counter of exceptions thrown
outside any `try`/`catch` (uncaught, reaching the global handler). -/
structure Sys (σ : Type) (κ : Type) where
  now : Nat
  nextSeq : Nat
  tasks : List (PTask κ)
  st : σ
  uncaught : Nat

/-- Insert a task into a time-sorted agenda, after all tasks with an earlier
or equal fire time (browser timers with equal deadlines fire in creation
order). -/
def insertTask {κ : Type} (t : PTask κ) : List (PTask κ) → List (PTask κ)
  | [] => [t]
  | u :: us => if u.time ≤ t.time then u :: insertTask t us else t :: u :: us

/-- `setTimeout(cb, delay)` (also used for the resumption of an `await`):
registers `cb` to fire `delay` ms from now. -/
def schedule {σ κ : Type} (delay : Nat) (cb : κ) (sys : Sys σ κ) : Sys σ κ :=
  { sys with
    nextSeq := sys.nextSeq + 1
    tasks := insertTask ⟨sys.now + delay, sys.nextSeq, cb⟩ sys.tasks }

/-- Update only the React state of a system. -/
def withSt {σ κ : Type} (f : σ → σ) (sys : Sys σ κ) : Sys σ κ :=
  { sys with st := f sys.st }

/-- Run the event loop: repeatedly fire the earliest pending task
(`apply` is the page's interpretation of callbacks), with fuel. -/
def execF {σ κ : Type} (apply : κ → Sys σ κ → Sys σ κ) : Nat → Sys σ κ → Sys σ κ
  | 0, sys => sys
  | n + 1, sys =>
      match sys.tasks with
      | [] => sys
      | t :: rest => execF apply n (apply t.cb { sys with now := t.time, tasks := rest })

/-! ## `FetchBasics.jsx` -/

namespace FB

/-- The five `useState` hooks of `FetchBasics`. -/
structure St where
  step : Nat
  status : Status
  imageUrl : Option Json
  logs : List LogEntry
  responseData : Option Json

/-- Initial state of the component (`useState` defaults). -/
def init : St := ⟨0, .idle, none, [], none⟩

/-- `reset`: sets `step` 0, `status` "idle", `imageUrl` null, `logs` [],
`responseData` null. -/
def reset (_s : St) : St :=
  { step := 0, status := .idle, imageUrl := none, logs := [], responseData := none }

/-- The callbacks a `runFetch` run can leave on the event loop. -/
inductive Cb where
  /-- the 500 ms timer: `setStep(1)`, log. -/
  | step1
  /-- the 1400 ms timer: `setStep(2)`, log. -/
  | step2
  /-- resumption of `await fetch(...)`: carries the outcome and the latency
  `jd` of the subsequent `response.json()` promise. -/
  | net (out : FetchOutcome) (jd : Nat)
  /-- resumption of `await response.json()`. -/
  | jsonDone (body : BodyRes)
  /-- the 2400 ms timer scheduled after parsing: `setStep(3)`, log. -/
  | step3
  /-- the 3200 ms timer: `setImageUrl(data[0].url)`, `setStatus("success")`, log. -/
  | final (data : Json)

abbrev S := Sys St Cb

/-- The `catch (error)` block of `runFetch`:
`setStatus("error"); addLog("Error: " + error.message, "error")`. -/
def catchErr (errMessage : String) (sys : S) : S :=
  withSt (fun s => { s with
    status := .error
    logs := addLog sys.now ("Error: " ++ errMessage) .error s.logs }) sys

/-- Interpretation of the callbacks of `runFetch` (each case follows the
corresponding block of the source line by line). -/
def apply : Cb → S → S
  | .step1, sys =>
      withSt (fun s => { s with
        step := 1
        logs := addLog sys.now "Browser sending HTTP request to API..." .info s.logs }) sys
  | .step2, sys =>
      withSt (fun s => { s with
        step := 2
        logs := addLog sys.now "API processing request..." .info s.logs }) sys
  | .net out jd, sys =>
      match out with
      | .reject _ errMessage => catchErr errMessage sys
      | .resolve code body =>
          let sys := withSt (fun s => { s with
            logs := addLog sys.now ("Response received. Status: " ++ toString code)
              .success s.logs }) sys
          if okStatus code then
            schedule jd (.jsonDone body) sys
          else
            catchErr ("HTTP Error. Status: " ++ toString code) sys
  | .jsonDone body, sys =>
      match body with
      | .invalid errMessage => catchErr errMessage sys
      | .json v =>
          let sys := withSt (fun s => { s with
            responseData := some v
            logs := addLog sys.now "JSON parsed successfully." .success s.logs }) sys
          let sys := schedule 2400 .step3 sys
          schedule 3200 (.final v) sys
  | .step3, sys =>
      withSt (fun s => { s with
        step := 3
        logs := addLog sys.now "Updating UI with fetched data..." .info s.logs }) sys
  | .final data, sys =>
      match evalFirstUrl data with
      | .error _ =>
          -- `data[0].url` throws inside the timer callback, outside the
          -- `try`/`catch` of `runFetch`: the exception is uncaught and no
          -- state is updated.
          { sys with uncaught := sys.uncaught + 1 }
      | .ok u =>
          withSt (fun s => { s with
            imageUrl := some u
            status := .success
            logs := addLog sys.now "Image rendered successfully." .success s.logs }) sys

/-- The synchronous part of `runFetch` up to the first `await`: `reset()`,
`setStatus("loading")`, the start log, the 500 ms and 1400 ms timers, and
the pending `fetch` resumption (`tNet` ms away). -/
def start (tNet jd : Nat) (out : FetchOutcome) (sys : S) : S :=
  let sys := withSt reset sys
  let sys := withSt (fun s => { s with status := .loading }) sys
  let sys := withSt (fun s => { s with
    logs := addLog sys.now "Starting fetch request..." .info s.logs }) sys
  let sys := schedule 500 .step1 sys
  let sys := schedule 1400 .step2 sys
  schedule tNet (.net out jd) sys

/-- The "Run fetch()" button: `onClick={runFetch}` with
`disabled={status === "loading"}` — a disabled button fires no click. -/
def clickRun (tNet jd : Nat) (out : FetchOutcome) (sys : S) : S :=
  if sys.st.status = .loading then sys else start tNet jd out sys

/-- The "Reset" button: `onClick={reset}` (never disabled).  `reset` only
sets state; no timer handle is stored, nothing is cancelled. -/
def clickReset (sys : S) : S :=
  withSt reset sys

/-- Fresh mount of the page. -/
def initSys : S := ⟨0, 0, [], init, 0⟩

/-- A complete run from a fresh mount: click Run, then drain the event loop. -/
def runToEnd (tNet jd : Nat) (out : FetchOutcome) : S :=
  execF apply 12 (clickRun tNet jd out initSys)

end FB

/-! ### Characterization of a successful `FetchBasics` run

For every network latency `tNet`, body latency `jd`, 2xx status and JSON
body that is a list whose first element carries a `url` field, draining the
event loop ends the run in `status = success` with `imageUrl` equal to that
`url` value, an empty agenda, a `success` log entry and no uncaught
exception. -/
set_option maxRecDepth 8000 in
theorem fb_success_run (tNet jd code : Nat) (hok : okStatus code = true)
    (e v : Json) (hurl : jsField "url" e = .ok v) (xs : List Json) :
    (FB.runToEnd tNet jd (.resolve code (.json (.arr (e :: xs))))).st.status = .success ∧
    (FB.runToEnd tNet jd (.resolve code (.json (.arr (e :: xs))))).st.imageUrl = some v ∧
    (FB.runToEnd tNet jd (.resolve code (.json (.arr (e :: xs))))).tasks = [] ∧
    (∃ l ∈ (FB.runToEnd tNet jd (.resolve code (.json (.arr (e :: xs))))).st.logs,
      l.type = .success) ∧
    (FB.runToEnd tNet jd (.resolve code (.json (.arr (e :: xs))))).uncaught = 0 := by
  have hfu : evalFirstUrl (.arr (e :: xs)) = .ok v := by
    simp [evalFirstUrl, jsIndex0, Bind.bind, Except.bind, hurl]
  have c7 : (tNet + jd + 2400 ≤ tNet + jd + 3200) = True := eq_true (by omega)
  have c3 : (500 ≤ tNet + jd + 2400) = True := eq_true (by omega)
  have c4 : (1400 ≤ tNet + jd + 2400) = True := eq_true (by omega)
  have c5 : (500 ≤ tNet + jd + 3200) = True := eq_true (by omega)
  have c6 : (1400 ≤ tNet + jd + 3200) = True := eq_true (by omega)
  rcases Nat.lt_or_ge tNet 500 with h1 | h1
  · have c1 : (500 ≤ tNet) = False := eq_false (by omega)
    rcases Nat.lt_or_ge (tNet + jd) 500 with h2 | h2
    · have c2 : (500 ≤ tNet + jd) = False := eq_false (by omega)
      simp [FB.runToEnd, FB.clickRun, FB.start, FB.initSys, FB.init, schedule,
        insertTask, withSt, execF, FB.apply, FB.reset, addLog, hok, hfu,
        c1, c2, c3, c4, c5, c6, c7]
    · have c2 : (500 ≤ tNet + jd) = True := eq_true (by omega)
      rcases Nat.lt_or_ge (tNet + jd) 1400 with h3 | h3
      · have c2b : (1400 ≤ tNet + jd) = False := eq_false (by omega)
        simp [FB.runToEnd, FB.clickRun, FB.start, FB.initSys, FB.init, schedule,
          insertTask, withSt, execF, FB.apply, FB.reset, addLog, hok, hfu,
          c1, c2, c2b, c3, c4, c5, c6, c7]
      · have c2b : (1400 ≤ tNet + jd) = True := eq_true (by omega)
        simp [FB.runToEnd, FB.clickRun, FB.start, FB.initSys, FB.init, schedule,
          insertTask, withSt, execF, FB.apply, FB.reset, addLog, hok, hfu,
          c1, c2, c2b, c3, c4, c5, c6, c7]
  · have c1 : (500 ≤ tNet) = True := eq_true (by omega)
    rcases Nat.lt_or_ge tNet 1400 with h2 | h2
    · have c1b : (1400 ≤ tNet) = False := eq_false (by omega)
      have c2 : (500 ≤ tNet + jd) = True := eq_true (by omega)
      rcases Nat.lt_or_ge (tNet + jd) 1400 with h3 | h3
      · have c2b : (1400 ≤ tNet + jd) = False := eq_false (by omega)
        simp [FB.runToEnd, FB.clickRun, FB.start, FB.initSys, FB.init, schedule,
          insertTask, withSt, execF, FB.apply, FB.reset, addLog, hok, hfu,
          c1, c1b, c2, c2b, c3, c4, c5, c6, c7]
      · have c2b : (1400 ≤ tNet + jd) = True := eq_true (by omega)
        simp [FB.runToEnd, FB.clickRun, FB.start, FB.initSys, FB.init, schedule,
          insertTask, withSt, execF, FB.apply, FB.reset, addLog, hok, hfu,
          c1, c1b, c2, c2b, c3, c4, c5, c6, c7]
    · have c1b : (1400 ≤ tNet) = True := eq_true (by omega)
      have c2 : (500 ≤ tNet + jd) = True := eq_true (by omega)
      have c2b : (1400 ≤ tNet + jd) = True := eq_true (by omega)
      simp [FB.runToEnd, FB.clickRun, FB.start, FB.initSys, FB.init, schedule,
        insertTask, withSt, execF, FB.apply, FB.reset, addLog, hok, hfu,
        c1, c1b, c2, c2b, c3, c4, c5, c6, c7]

/-! ## `ErrorHandling.jsx` -/

/-- A caught JS error, as used by `getUserMessage` / `getErrorType`
(`err.name` and `err.message`). -/
structure JsError where
  name : String
  message : String

/-- `getUserMessage(error, mode)` of `ErrorHandling.jsx`
(`const msg = String(error?.message || "")`; our modelled errors always
carry a string message, so `msg` is `error.message`). -/
def getUserMessage (error : JsError) (mode : String) : String :=
  let msg := error.message
  if mode = "network" || jsIncludes msg "Failed to fetch" then
    "Cannot connect to the server. Please check your internet connection."
  else if mode = "http" || jsStartsWith msg "HTTP " then
    "The server returned an error response. Please try again later."
  else if mode = "parsing" then
    "The server sent data in an unexpected format. Please contact support."
  else
    "Something went wrong. Please try again."

/-- `getErrorType(error, mode)` of `ErrorHandling.jsx`: the error argument
is never inspected, only the mode. -/
def getErrorType (_error : JsError) (mode : String) : String :=
  if mode = "network" then "Network Error"
  else if mode = "http" then "HTTP Error"
  else if mode = "parsing" then "Parsing Error"
  else "Unknown Error"

namespace EH

/-- The error details panel record set by the `catch` block:
`{ name: err.name, message: err.message, type: getErrorType(err, mode) }`. -/
structure ErrDetails where
  name : String
  message : String
  type : String

/-- The seven `useState` hooks of `ErrorHandling`. -/
structure St where
  step : Nat
  mode : String
  status : Status
  message : String
  logs : List LogEntry
  errorDetails : Option ErrDetails
  responseStatus : Option Nat

/-- Initial state (`useState` defaults; `mode` starts as `"success"`). -/
def init : St := ⟨0, "success", .idle, "", [], none, none⟩

/-- `reset`: clears everything except `mode`. -/
def reset (s : St) : St :=
  { s with
    step := 0
    status := .idle
    message := ""
    logs := []
    errorDetails := none
    responseStatus := none }

/-- The callbacks a `runRequest` run can leave on the event loop. -/
inductive Cb where
  /-- the 400 ms timer: `setStep(1)`, log. -/
  | step1
  /-- the 1000 ms timer: `setStep(2)`, log. -/
  | step2
  /-- resumption of `await fetch(url)`. `selMode` is the `selectedMode`
  argument, `closMode` the `mode` captured by the closure, `bd` the latency
  of the body promise (`response.text()` / `response.json()`), `parseMsg`
  the message of the `SyntaxError` that `JSON.parse("invalid json content")`
  raises. -/
  | net (selMode closMode : String) (out : FetchOutcome) (bd : Nat) (parseMsg : String)
  /-- the 1800 ms timer of the ok path: `setStep(3)` (no log). -/
  | step3
  /-- resumption of `await response.text()` in the parsing scenario: logs,
  then `JSON.parse("invalid json content")` throws a `SyntaxError`. -/
  | textDone (closMode parseMsg : String)
  /-- resumption of `await response.json()` in the other scenarios. -/
  | jsonDone (closMode : String) (body : BodyRes)
  /-- the 2400 ms timer: `setStep(4)`, `setStatus("success")`, message, log. -/
  | successFinal
  /-- the 1800 ms timer of the `catch` block: `setStep(3)`, error log. -/
  | catch1 (name message : String)
  /-- the 2600 ms timer of the `catch` block: `setStep(4)`,
  `setStatus("error")`, user message. -/
  | catch2 (closMode name message : String)

abbrev S := Sys St Cb

/-- The synchronous part of the `catch (err)` block: stores the error
details (classified with the closure's `mode`) and schedules the two
delayed error-narration callbacks. -/
def catchErr (closMode name message : String) (sys : S) : S :=
  let sys := withSt (fun s => { s with
    errorDetails := some ⟨name, message, getErrorType ⟨name, message⟩ closMode⟩ }) sys
  let sys := schedule 1800 (.catch1 name message) sys
  schedule 2600 (.catch2 closMode name message) sys

/-- Interpretation of the callbacks of `runRequest` (each case follows the
corresponding block of the source line by line). -/
def apply : Cb → S → S
  | .step1, sys =>
      withSt (fun s => { s with
        step := 1
        logs := addLog sys.now "Browser sending fetch request..." .info s.logs }) sys
  | .step2, sys =>
      withSt (fun s => { s with
        step := 2
        logs := addLog sys.now "Waiting for server response..." .info s.logs }) sys
  | .net selMode closMode out bd parseMsg, sys =>
      match out with
      | .reject errName errMessage => catchErr closMode errName errMessage sys
      | .resolve code body =>
          let sys := withSt (fun s => { s with
            responseStatus := some code
            logs := addLog sys.now ("Response received - Status: " ++ toString code)
                (if okStatus code then .success else .warning) s.logs }) sys
          if okStatus code then
            let sys := schedule 1800 .step3 sys
            if selMode = "parsing" then
              let sys := withSt (fun s => { s with
                logs := addLog sys.now "Attempting to parse response..." .info s.logs }) sys
              schedule bd (.textDone closMode parseMsg) sys
            else
              let sys := withSt (fun s => { s with
                logs := addLog sys.now "Parsing JSON response..." .info s.logs }) sys
              schedule bd (.jsonDone closMode body) sys
          else
            let sys := withSt (fun s => { s with
              logs := addLog sys.now ("HTTP Error detected: " ++ toString code)
                .error s.logs }) sys
            catchErr closMode "Error" ("HTTP " ++ toString code) sys
  | .step3, sys =>
      withSt (fun s => { s with step := 3 }) sys
  | .textDone closMode parseMsg, sys =>
      let sys := withSt (fun s => { s with
        logs := addLog sys.now "Forcing invalid JSON parse..." .warning s.logs }) sys
      catchErr closMode "SyntaxError" parseMsg sys
  | .jsonDone closMode body, sys =>
      match body with
      | .invalid errMessage => catchErr closMode "SyntaxError" errMessage sys
      | .json _ => schedule 2400 .successFinal sys
  | .successFinal, sys =>
      withSt (fun s => { s with
        step := 4
        status := .success
        message := "Everything went well. Data loaded successfully."
        logs := addLog sys.now "Request completed successfully." .success s.logs }) sys
  | .catch1 name message, sys =>
      withSt (fun s => { s with
        step := 3
        logs := addLog sys.now ("Error caught: " ++ name ++ " - " ++ message)
          .error s.logs }) sys
  | .catch2 closMode name message, sys =>
      let userMsg := getUserMessage ⟨name, message⟩ closMode
      withSt (fun s => { s with
        step := 4
        status := .error
        message := userMsg
        logs := addLog sys.now ("User message: " ++ userMsg) .info s.logs }) sys

/-- The synchronous part of `runRequest(selectedMode)` up to the first
`await`: `reset()`, `setMode(selectedMode)`, `setStatus("loading")`, the
start log, the 400 ms and 1000 ms timers, the scenario-specific warning
log, and the pending `fetch` resumption (`tNet` ms away).  `closMode` is
the `mode` state captured by the closure of `runRequest`. -/
def start (selMode closMode : String) (tNet bd : Nat) (out : FetchOutcome)
    (parseMsg : String) (sys : S) : S :=
  let sys := withSt reset sys
  let sys := withSt (fun s => { s with mode := selMode, status := .loading }) sys
  let sys := withSt (fun s => { s with
    logs := addLog sys.now ("Starting " ++ selMode ++ " scenario...") .info s.logs }) sys
  let sys := schedule 400 .step1 sys
  let sys := schedule 1000 .step2 sys
  let sys :=
    if selMode = "http" then
      withSt (fun s => { s with
        logs := addLog sys.now "Using invalid endpoint to trigger HTTP error"
          .warning s.logs }) sys
    else sys
  let sys :=
    if selMode = "network" then
      withSt (fun s => { s with
        logs := addLog sys.now "Using unreachable domain to trigger network error"
          .warning s.logs }) sys
    else sys
  schedule tNet (.net selMode closMode out bd parseMsg) sys

/-- A scenario selector button: `onClick={() => setMode(m)}`. -/
def clickScenario (m : String) (sys : S) : S :=
  withSt (fun s => { s with mode := m }) sys

/-- The "Run" button: `onClick={() => runRequest(mode)}` with
`disabled={status === "loading"}` — the argument and the closure capture
are both the current `mode` state. -/
def clickRun (tNet bd : Nat) (out : FetchOutcome) (parseMsg : String) (sys : S) : S :=
  if sys.st.status = .loading then sys
  else start sys.st.mode sys.st.mode tNet bd out parseMsg sys

/-- The "Reset" button: `onClick={reset}` (never disabled); no timer is
cancelled. -/
def clickReset (sys : S) : S :=
  withSt reset sys

/-- Fresh mount of the page. -/
def initSys : S := ⟨0, 0, [], init, 0⟩

/-- A complete run from a fresh mount: pick the scenario, click Run, then
drain the event loop. -/
def runToEnd (m : String) (tNet bd : Nat) (out : FetchOutcome) (parseMsg : String) : S :=
  execF apply 12 (clickRun tNet bd out parseMsg (clickScenario m initSys))

end EH

/-! ### Characterization of an `ErrorHandling` run that receives a non-2xx
response

For every scenario `m`, latencies and body, if the fetch resolves with a
non-2xx status the run ends in `status = error`, the log list contains the
`error`-tagged entry naming the status code, the user-facing `message` is
`getUserMessage` of the raw error, the error details panel holds the raw
technical message, and the agenda is drained. -/
set_option maxRecDepth 8000 in
theorem eh_httpError_run (m : String) (tNet bd code : Nat) (body : BodyRes)
    (parseMsg : String) (hbad : okStatus code = false) :
    (EH.runToEnd m tNet bd (.resolve code body) parseMsg).st.status = .error ∧
    (⟨"HTTP Error detected: " ++ toString code, .error, tNet⟩ : LogEntry) ∈
      (EH.runToEnd m tNet bd (.resolve code body) parseMsg).st.logs ∧
    (EH.runToEnd m tNet bd (.resolve code body) parseMsg).st.message =
      getUserMessage ⟨"Error", "HTTP " ++ toString code⟩ m ∧
    (EH.runToEnd m tNet bd (.resolve code body) parseMsg).st.errorDetails =
      some ⟨"Error", "HTTP " ++ toString code,
        getErrorType ⟨"Error", "HTTP " ++ toString code⟩ m⟩ ∧
    (EH.runToEnd m tNet bd (.resolve code body) parseMsg).tasks = [] := by
  have c3 : (400 ≤ tNet + 1800) = True := eq_true (by omega)
  have c4 : (1000 ≤ tNet + 1800) = True := eq_true (by omega)
  have c5 : (400 ≤ tNet + 2600) = True := eq_true (by omega)
  have c6 : (1000 ≤ tNet + 2600) = True := eq_true (by omega)
  have c7 : (tNet + 1800 ≤ tNet + 2600) = True := eq_true (by omega)
  rcases Nat.lt_or_ge tNet 400 with h1 | h1
  · have c1 : (400 ≤ tNet) = False := eq_false (by omega)
    by_cases hm1 : m = "http" <;> by_cases hm2 : m = "network" <;>
      simp [EH.runToEnd, EH.clickRun, EH.clickScenario, EH.start, EH.initSys, EH.init,
        EH.catchErr, schedule, insertTask, withSt, execF, EH.apply, EH.reset, addLog,
        hbad, hm1, hm2, c1, c3, c4, c5, c6, c7]
  · have c1 : (400 ≤ tNet) = True := eq_true (by omega)
    rcases Nat.lt_or_ge tNet 1000 with h2 | h2
    · have c2 : (1000 ≤ tNet) = False := eq_false (by omega)
      by_cases hm1 : m = "http" <;> by_cases hm2 : m = "network" <;>
        simp [EH.runToEnd, EH.clickRun, EH.clickScenario, EH.start, EH.initSys, EH.init,
          EH.catchErr, schedule, insertTask, withSt, execF, EH.apply, EH.reset, addLog,
          hbad, hm1, hm2, c1, c2, c3, c4, c5, c6, c7]
    · have c2 : (1000 ≤ tNet) = True := eq_true (by omega)
      by_cases hm1 : m = "http" <;> by_cases hm2 : m = "network" <;>
        simp [EH.runToEnd, EH.clickRun, EH.clickScenario, EH.start, EH.initSys, EH.init,
          EH.catchErr, schedule, insertTask, withSt, execF, EH.apply, EH.reset, addLog,
          hbad, hm1, hm2, c1, c2, c3, c4, c5, c6, c7]

/-! ## `PromisesAsync.jsx` -/

namespace PA

/-- The six `useState` hooks of `PromisesAsync`. -/
structure St where
  step : Nat
  mode : String
  status : Status
  imageUrl : Option Json
  logs : List LogEntry
  executionTime : Option Nat

/-- Initial state (`mode` starts as `"await"`). -/
def init : St := ⟨0, "await", .idle, none, [], none⟩

/-- `reset`: clears everything except `mode`. -/
def reset (s : St) : St :=
  { s with
    step := 0
    status := .idle
    imageUrl := none
    logs := []
    executionTime := none }

/-- The callbacks a `runFlow` run can leave on the event loop. -/
inductive Cb where
  /-- the 500 ms timer: `setStep(1)`, log. -/
  | step1
  /-- the 1200 ms timer: `setStep(2)`, log. -/
  | step2
  /-- resumption of `await fetch(...)`; carries the `selectedMode` argument,
  the latency `jd` of `response.json()` and the `startTime` captured at the
  start of the run. -/
  | net (selMode : String) (out : FetchOutcome) (jd : Nat) (startTime : Nat)
  /-- the 2200 ms timer: `setStep(3)`, mode-dependent log. -/
  | step3 (selMode : String)
  /-- resumption of `await response.json()`. -/
  | jsonDone (body : BodyRes) (startTime : Nat)
  /-- the 3200 ms timer: `setStep(4)`, `setImageUrl(data[0].url)`,
  `setStatus("success")`, execution time, two logs. -/
  | final (data : Json) (startTime : Nat)

abbrev S := Sys St Cb

/-- The `catch (error)` block of `runFlow`. -/
def catchErr (errMessage : String) (sys : S) : S :=
  withSt (fun s => { s with
    status := .error
    logs := addLog sys.now ("Error caught: " ++ errMessage) .error s.logs }) sys

/-- Interpretation of the callbacks of `runFlow`. -/
def apply : Cb → S → S
  | .step1, sys =>
      withSt (fun s => { s with
        step := 1
        logs := addLog sys.now "Browser initiating fetch request" .info s.logs }) sys
  | .step2, sys =>
      withSt (fun s => { s with
        step := 2
        logs := addLog sys.now "Waiting for API response..." .info s.logs }) sys
  | .net selMode out jd startTime, sys =>
      match out with
      | .reject _ errMessage => catchErr errMessage sys
      | .resolve code body =>
          let sys := withSt (fun s => { s with
            logs := addLog sys.now ("Response received with status: " ++ toString code)
              .success s.logs }) sys
          if okStatus code then
            let sys := schedule 2200 (.step3 selMode) sys
            schedule jd (.jsonDone body startTime) sys
          else
            catchErr "Request failed" sys
  | .step3 selMode, sys =>
      withSt (fun s => { s with
        step := 3
        logs := addLog sys.now
          (if selMode = "then" then "Executing .then() chain callbacks"
           else "Executing await statement for JSON parsing") .info s.logs }) sys
  | .jsonDone body startTime, sys =>
      match body with
      | .invalid errMessage => catchErr errMessage sys
      | .json v =>
          let sys := withSt (fun s => { s with
            logs := addLog sys.now "JSON data parsed successfully" .success s.logs }) sys
          schedule 3200 (.final v startTime) sys
  | .final data startTime, sys =>
      let sys := withSt (fun s => { s with step := 4 }) sys
      match evalFirstUrl data with
      | .error _ =>
          -- `data[0].url` throws inside the timer callback, outside the
          -- `try`/`catch` of `runFlow`: uncaught, nothing further runs.
          { sys with uncaught := sys.uncaught + 1 }
      | .ok u =>
          withSt (fun s => { s with
            imageUrl := some u
            status := .success
            executionTime := some (sys.now - startTime)
            logs := addLog sys.now
              ("Total execution time: " ++ toString (sys.now - startTime) ++ "ms")
              .info (addLog sys.now "UI updated with image" .success s.logs) }) sys

/-- The synchronous part of `runFlow(selectedMode)` up to the first `await`. -/
def start (selMode : String) (tNet jd : Nat) (out : FetchOutcome) (sys : S) : S :=
  let sys := withSt reset sys
  let sys := withSt (fun s => { s with mode := selMode, status := .loading }) sys
  let startTime := sys.now
  let sys := withSt (fun s => { s with
    logs := addLog sys.now
      ("Starting " ++ (if selMode = "then" then ".then() chain" else "async/await")
        ++ " pattern...") .info s.logs }) sys
  let sys := schedule 500 .step1 sys
  let sys := schedule 1200 .step2 sys
  schedule tNet (.net selMode out jd startTime) sys

/-- A pattern selector button: `onClick={() => setMode(m)}`. -/
def clickMode (m : String) (sys : S) : S :=
  withSt (fun s => { s with mode := m }) sys

/-- The "Run" button: `onClick={() => runFlow(mode)}` with
`disabled={status === "loading"}`. -/
def clickRun (tNet jd : Nat) (out : FetchOutcome) (sys : S) : S :=
  if sys.st.status = .loading then sys else start sys.st.mode tNet jd out sys

/-- The "Reset" button: `onClick={reset}`; no timer is cancelled. -/
def clickReset (sys : S) : S :=
  withSt reset sys

/-- Fresh mount of the page. -/
def initSys : S := ⟨0, 0, [], init, 0⟩

/-- A complete run from a fresh mount: pick the pattern, click Run, drain
the event loop. -/
def runToEnd (m : String) (tNet jd : Nat) (out : FetchOutcome) : S :=
  execF apply 12 (clickRun tNet jd out (clickMode m initSys))

end PA

/-! ## `XhrLegacy.jsx`, component `XhrLegacy` -/

namespace XL

/-- The `useState` hooks of `XhrLegacy` (the `codeMetrics` hook is a
constant that no code ever updates and no claim mentions; it is omitted). -/
structure St where
  step : Nat
  status : Status
  imageUrl : Option Json
  activeMethod : String
  logs : List LogEntry

/-- Initial state (`activeMethod` starts as `"xhr"`). -/
def init : St := ⟨0, .idle, none, "xhr", []⟩

/-- `reset`: sets `step` 0, `status` "idle", `imageUrl` null, `logs` []. -/
def reset (s : St) : St :=
  { s with step := 0, status := .idle, imageUrl := none, logs := [] }

/-- The callbacks a `runXhrFlow` run can leave on the event loop. -/
inductive Cb where
  /-- the 500 ms timer: `setStep(1)`, log. -/
  | step1 (am : String)
  /-- the 1400 ms timer: `setStep(2)`, log. -/
  | step2
  /-- resumption of `await fetch(...)`. -/
  | net (out : FetchOutcome) (jd : Nat) (am : String)
  /-- resumption of `await response.json()`. -/
  | jsonDone (body : BodyRes) (am : String)
  /-- the 2400 ms timer: `setStep(3)`, mode-dependent log. -/
  | step3 (am : String)
  /-- the 3200 ms timer: `setImageUrl(data[0].url)`, `setStatus("success")`, log. -/
  | final (data : Json)

abbrev S := Sys St Cb

/-- The `catch (error)` block of `runXhrFlow`. -/
def catchErr (errMessage : String) (sys : S) : S :=
  withSt (fun s => { s with
    status := .error
    logs := addLog sys.now ("Request failed: " ++ errMessage) .error s.logs }) sys

/-- Interpretation of the callbacks of `runXhrFlow` (`am` is the
`activeMethod` state captured by the closures). -/
def apply : Cb → S → S
  | .step1 am, sys =>
      withSt (fun s => { s with
        step := 1
        logs := addLog sys.now
          ("Browser initiating " ++ am.toUpper ++ " request") .info s.logs }) sys
  | .step2, sys =>
      withSt (fun s => { s with
        step := 2
        logs := addLog sys.now "Request sent to Cat API server" .info s.logs }) sys
  | .net out jd am, sys =>
      match out with
      | .reject _ errMessage => catchErr errMessage sys
      | .resolve code body =>
          let sys := withSt (fun s => { s with
            logs := addLog sys.now ("Response received with status: " ++ toString code)
              .success s.logs }) sys
          if okStatus code then
            schedule jd (.jsonDone body am) sys
          else
            catchErr "Request failed" sys
  | .jsonDone body am, sys =>
      match body with
      | .invalid errMessage => catchErr errMessage sys
      | .json v =>
          let sys := withSt (fun s => { s with
            logs := addLog sys.now "JSON data parsed successfully" .success s.logs }) sys
          let sys := schedule 2400 (.step3 am) sys
          schedule 3200 (.final v) sys
  | .step3 am, sys =>
      withSt (fun s => { s with
        step := 3
        logs := addLog sys.now
          ((if am = "xhr" then "Callback" else "Promise") ++ " processing response")
          .info s.logs }) sys
  | .final data, sys =>
      match evalFirstUrl data with
      | .error _ =>
          -- `data[0].url` throws inside the timer callback, outside the
          -- `try`/`catch` of `runXhrFlow`: uncaught, nothing is updated.
          { sys with uncaught := sys.uncaught + 1 }
      | .ok u =>
          withSt (fun s => { s with
            imageUrl := some u
            status := .success
            logs := addLog sys.now "Image rendered in UI" .success s.logs }) sys

/-- The synchronous part of `runXhrFlow` up to the first `await`
(`am` is the current `activeMethod` state). -/
def start (am : String) (tNet jd : Nat) (out : FetchOutcome) (sys : S) : S :=
  let sys := withSt reset sys
  let sys := withSt (fun s => { s with status := .loading }) sys
  let sys := withSt (fun s => { s with
    logs := addLog sys.now ("Starting " ++ am.toUpper ++ " request flow...")
      .info s.logs }) sys
  let sys := schedule 500 (.step1 am) sys
  let sys := schedule 1400 .step2 sys
  schedule tNet (.net out jd am) sys

/-- The "Run" button: `onClick={runXhrFlow}` with
`disabled={status === "loading"}`. -/
def clickRun (tNet jd : Nat) (out : FetchOutcome) (sys : S) : S :=
  if sys.st.status = .loading then sys else start sys.st.activeMethod tNet jd out sys

/-- The "Reset" button: `onClick={reset}`; no timer is cancelled. -/
def clickReset (sys : S) : S :=
  withSt reset sys

/-- Fresh mount of the page. -/
def initSys : S := ⟨0, 0, [], init, 0⟩

/-- A complete run from a fresh mount. -/
def runToEnd (tNet jd : Nat) (out : FetchOutcome) : S :=
  execF apply 12 (clickRun tNet jd out initSys)

end XL

/-! ### Characterization of a successful `PromisesAsync` run (mirrors the
`FetchBasics` one; the pattern selector only changes log strings). -/
set_option maxRecDepth 8000 in
theorem pa_success_run (m : String) (tNet jd code : Nat) (hok : okStatus code = true)
    (e v : Json) (hurl : jsField "url" e = .ok v) (xs : List Json) :
    (PA.runToEnd m tNet jd (.resolve code (.json (.arr (e :: xs))))).st.status = .success ∧
    (PA.runToEnd m tNet jd (.resolve code (.json (.arr (e :: xs))))).st.imageUrl = some v ∧
    (PA.runToEnd m tNet jd (.resolve code (.json (.arr (e :: xs))))).tasks = [] ∧
    (∃ l ∈ (PA.runToEnd m tNet jd (.resolve code (.json (.arr (e :: xs))))).st.logs,
      l.type = .success) ∧
    (PA.runToEnd m tNet jd (.resolve code (.json (.arr (e :: xs))))).uncaught = 0 := by
  have hfu : evalFirstUrl (.arr (e :: xs)) = .ok v := by
    simp [evalFirstUrl, jsIndex0, Bind.bind, Except.bind, hurl]
  have d1 : (500 ≤ tNet + 2200) = True := eq_true (by omega)
  have d2 : (1200 ≤ tNet + 2200) = True := eq_true (by omega)
  have d3 : (500 ≤ tNet + jd + 3200) = True := eq_true (by omega)
  have d4 : (1200 ≤ tNet + jd + 3200) = True := eq_true (by omega)
  have d5 : (tNet + 2200 ≤ tNet + jd + 3200) = True := eq_true (by omega)
  rcases Nat.lt_or_ge tNet 500 with h1 | h1
  · have c1 : (500 ≤ tNet) = False := eq_false (by omega)
    rcases Nat.lt_or_ge (tNet + jd) 500 with h2 | h2
    · have c2 : (500 ≤ tNet + jd) = False := eq_false (by omega)
      simp [PA.runToEnd, PA.clickRun, PA.clickMode, PA.start, PA.initSys, PA.init,
        PA.catchErr, schedule, insertTask, withSt, execF, PA.apply, PA.reset, addLog,
        hok, hfu, c1, c2, d1, d2, d3, d4, d5]
    · have c2 : (500 ≤ tNet + jd) = True := eq_true (by omega)
      rcases Nat.lt_or_ge (tNet + jd) 1200 with h3 | h3
      · have c3 : (1200 ≤ tNet + jd) = False := eq_false (by omega)
        simp [PA.runToEnd, PA.clickRun, PA.clickMode, PA.start, PA.initSys, PA.init,
          PA.catchErr, schedule, insertTask, withSt, execF, PA.apply, PA.reset, addLog,
          hok, hfu, c1, c2, c3, d1, d2, d3, d4, d5]
      · have c3 : (1200 ≤ tNet + jd) = True := eq_true (by omega)
        rcases Nat.lt_or_ge jd 2200 with h4 | h4
        · have c4 : (tNet + 2200 ≤ tNet + jd) = False := eq_false (by omega)
          simp [PA.runToEnd, PA.clickRun, PA.clickMode, PA.start, PA.initSys, PA.init,
            PA.catchErr, schedule, insertTask, withSt, execF, PA.apply, PA.reset, addLog,
            hok, hfu, c1, c2, c3, c4, d1, d2, d3, d4, d5]
        · have c4 : (tNet + 2200 ≤ tNet + jd) = True := eq_true (by omega)
          simp [PA.runToEnd, PA.clickRun, PA.clickMode, PA.start, PA.initSys, PA.init,
            PA.catchErr, schedule, insertTask, withSt, execF, PA.apply, PA.reset, addLog,
            hok, hfu, c1, c2, c3, c4, d1, d2, d3, d4, d5]
  · have c1 : (500 ≤ tNet) = True := eq_true (by omega)
    have c2 : (500 ≤ tNet + jd) = True := eq_true (by omega)
    rcases Nat.lt_or_ge tNet 1200 with h2 | h2
    · have c1b : (1200 ≤ tNet) = False := eq_false (by omega)
      rcases Nat.lt_or_ge (tNet + jd) 1200 with h3 | h3
      · have c3 : (1200 ≤ tNet + jd) = False := eq_false (by omega)
        simp [PA.runToEnd, PA.clickRun, PA.clickMode, PA.start, PA.initSys, PA.init,
          PA.catchErr, schedule, insertTask, withSt, execF, PA.apply, PA.reset, addLog,
          hok, hfu, c1, c1b, c2, c3, d1, d2, d3, d4, d5]
      · have c3 : (1200 ≤ tNet + jd) = True := eq_true (by omega)
        rcases Nat.lt_or_ge jd 2200 with h4 | h4
        · have c4 : (tNet + 2200 ≤ tNet + jd) = False := eq_false (by omega)
          simp [PA.runToEnd, PA.clickRun, PA.clickMode, PA.start, PA.initSys, PA.init,
            PA.catchErr, schedule, insertTask, withSt, execF, PA.apply, PA.reset, addLog,
            hok, hfu, c1, c1b, c2, c3, c4, d1, d2, d3, d4, d5]
        · have c4 : (tNet + 2200 ≤ tNet + jd) = True := eq_true (by omega)
          simp [PA.runToEnd, PA.clickRun, PA.clickMode, PA.start, PA.initSys, PA.init,
            PA.catchErr, schedule, insertTask, withSt, execF, PA.apply, PA.reset, addLog,
            hok, hfu, c1, c1b, c2, c3, c4, d1, d2, d3, d4, d5]
    · have c1b : (1200 ≤ tNet) = True := eq_true (by omega)
      have c3 : (1200 ≤ tNet + jd) = True := eq_true (by omega)
      rcases Nat.lt_or_ge jd 2200 with h4 | h4
      · have c4 : (tNet + 2200 ≤ tNet + jd) = False := eq_false (by omega)
        simp [PA.runToEnd, PA.clickRun, PA.clickMode, PA.start, PA.initSys, PA.init,
          PA.catchErr, schedule, insertTask, withSt, execF, PA.apply, PA.reset, addLog,
          hok, hfu, c1, c1b, c2, c3, c4, d1, d2, d3, d4, d5]
      · have c4 : (tNet + 2200 ≤ tNet + jd) = True := eq_true (by omega)
        simp [PA.runToEnd, PA.clickRun, PA.clickMode, PA.start, PA.initSys, PA.init,
          PA.catchErr, schedule, insertTask, withSt, execF, PA.apply, PA.reset, addLog,
          hok, hfu, c1, c1b, c2, c3, c4, d1, d2, d3, d4, d5]

/-! ## `RequestConfig.jsx` (component `RequestConfig`) -/

namespace RC

/-- The `configDetails` record: `{ method, headers, body }`; `headers` is
the fixed two-header object, `body` the `{ demo: true, timestamp }` record
(represented by its timestamp). -/
structure CfgDetails where
  method : Option String
  headers : Option (List (String × String))
  body : Option Nat

/-- The six `useState` hooks of `RequestConfig`. -/
structure St where
  step : Nat
  status : Status
  responseStatus : Option Nat
  logs : List LogEntry
  selectedMethod : String
  configDetails : CfgDetails

/-- Initial state (`selectedMethod` starts as `"GET"`). -/
def init : St := ⟨0, .idle, none, [], "GET", ⟨none, none, none⟩⟩

/-- `reset`: clears everything except `selectedMethod`. -/
def reset (s : St) : St :=
  { s with
    step := 0
    status := .idle
    responseStatus := none
    logs := []
    configDetails := ⟨none, none, none⟩ }

/-- The fixed headers attached by the demo. -/
def demoHeaders : List (String × String) :=
  [("Content-Type", "application/json"), ("x-demo-client", "build-it-api-fetching")]

/-- The callbacks a `runConfiguredFetch` run can leave on the event loop
(`sm` is the `selectedMethod` state captured by the closures). -/
inductive Cb where
  /-- 500 ms: `setStep(1)`, log. -/
  | step1
  /-- 1200 ms: `setStep(2)`, config method, log. -/
  | step2 (sm : String)
  /-- 2200 ms: `setStep(3)`, config headers, three logs. -/
  | step3
  /-- 3200 ms: `setStep(4)`, body for non-GET, log. -/
  | step4 (sm : String)
  /-- 4000 ms: `setStep(5)`, log. -/
  | step5
  /-- resumption of `await fetch(url, config)`. -/
  | net (out : FetchOutcome) (jd : Nat)
  /-- 4500 ms: `setStep(6)`, log. -/
  | step6
  /-- 5000 ms: `setStep(7)`, log. -/
  | step7
  /-- resumption of `await response.json()`. -/
  | jsonDone (body : BodyRes)
  /-- 5500 ms: `setStatus("success")`, log. -/
  | final

abbrev S := Sys St Cb

/-- The `catch (error)` block of `runConfiguredFetch`. -/
def catchErr (errMessage : String) (sys : S) : S :=
  withSt (fun s => { s with
    status := .error
    logs := addLog sys.now ("Request failed: " ++ errMessage) .error s.logs }) sys

/-- Interpretation of the callbacks of `runConfiguredFetch`. -/
def apply : Cb → S → S
  | .step1, sys =>
      withSt (fun s => { s with
        step := 1
        logs := addLog sys.now "Browser preparing fetch() call" .info s.logs }) sys
  | .step2 sm, sys =>
      withSt (fun s => { s with
        step := 2
        configDetails := { s.configDetails with method := some sm }
        logs := addLog sys.now ("Setting HTTP method: " ++ sm) .info s.logs }) sys
  | .step3, sys =>
      withSt (fun s => { s with
        step := 3
        configDetails := { s.configDetails with headers := some demoHeaders }
        logs := addLog sys.now "Header: x-demo-client: build-it-api-fetching" .success
          (addLog sys.now "Header: Content-Type: application/json" .success
            (addLog sys.now "Attaching request headers" .info s.logs)) }) sys
  | .step4 sm, sys =>
      if sm ≠ "GET" then
        withSt (fun s => { s with
          step := 4
          configDetails := { s.configDetails with body := some sys.now }
          logs := addLog sys.now "Preparing request body (JSON)" .info s.logs }) sys
      else
        withSt (fun s => { s with
          step := 4
          logs := addLog sys.now "No body needed for GET request" .info s.logs }) sys
  | .step5, sys =>
      withSt (fun s => { s with
        step := 5
        logs := addLog sys.now "Sending HTTP request to API..." .info s.logs }) sys
  | .net out jd, sys =>
      match out with
      | .reject _ errMessage => catchErr errMessage sys
      | .resolve code body =>
          let sys := schedule 4500 .step6 sys
          let sys := withSt (fun s => { s with
            responseStatus := some code
            logs := addLog sys.now ("Response received with status: " ++ toString code)
              .success s.logs }) sys
          if okStatus code then
            let sys := schedule 5000 .step7 sys
            schedule jd (.jsonDone body) sys
          else
            catchErr "Request failed" sys
  | .step6, sys =>
      withSt (fun s => { s with
        step := 6
        logs := addLog sys.now "API processing request..." .info s.logs }) sys
  | .step7, sys =>
      withSt (fun s => { s with
        step := 7
        logs := addLog sys.now "Parsing HTTP response..." .info s.logs }) sys
  | .jsonDone body, sys =>
      match body with
      | .invalid errMessage => catchErr errMessage sys
      | .json _ =>
          let sys := withSt (fun s => { s with
            logs := addLog sys.now "Response data parsed successfully" .success s.logs }) sys
          schedule 5500 .final sys
  | .final, sys =>
      withSt (fun s => { s with
        status := .success
        logs := addLog sys.now "Request completed successfully" .success s.logs }) sys

/-- The synchronous part of `runConfiguredFetch` up to the first `await`
(`sm` is the current `selectedMethod` state). -/
def start (sm : String) (tNet jd : Nat) (out : FetchOutcome) (sys : S) : S :=
  let sys := withSt reset sys
  let sys := withSt (fun s => { s with status := .loading }) sys
  let sys := withSt (fun s => { s with
    logs := addLog sys.now "Initializing fetch request configuration..." .info s.logs }) sys
  let sys := schedule 500 .step1 sys
  let sys := schedule 1200 (.step2 sm) sys
  let sys := schedule 2200 .step3 sys
  let sys := schedule 3200 (.step4 sm) sys
  let sys := schedule 4000 .step5 sys
  schedule tNet (.net out jd) sys

/-- The "Run" button: `onClick={runConfiguredFetch}` with
`disabled={status === "loading"}`. -/
def clickRun (tNet jd : Nat) (out : FetchOutcome) (sys : S) : S :=
  if sys.st.status = .loading then sys else start sys.st.selectedMethod tNet jd out sys

/-- The "Reset" button: `onClick={reset}`; no timer is cancelled. -/
def clickReset (sys : S) : S :=
  withSt reset sys

/-- Fresh mount of the page. -/
def initSys : S := ⟨0, 0, [], init, 0⟩

end RC

/-! ## `ResponseParsing.jsx` (component `ResponseParsing`) -/

namespace RP

/-- Environment-produced values of a `runParse` run: the `content-type`
header, the text body, the serialized preview `JSON.stringify(data, null, 2)`
and its `Blob` byte size, and the image-blob chain of the `blob` mode
(image fetch latency and outcome, blob latency, size, `type`, the
`(size/1024).toFixed(2)` rendering and the object URL). -/
structure Env where
  ct : String
  txt : String
  preview : String
  previewSize : Nat
  imgDelay : Nat
  imgOut : FetchOutcome
  blobDelay : Nat
  blobSize : Nat
  blobType : String
  blobKb : String
  objectUrl : String

/-- The eight `useState` hooks of `ResponseParsing`. -/
structure St where
  step : Nat
  status : Status
  mode : String
  imageUrl : Option String
  rawPreview : String
  logs : List LogEntry
  contentType : Option String
  dataSize : Option Nat

/-- Initial state (`mode` starts as `"json"`). -/
def init : St := ⟨0, .idle, "json", none, "", [], none, none⟩

/-- `reset`: clears everything except `mode`. -/
def reset (s : St) : St :=
  { s with
    step := 0
    status := .idle
    imageUrl := none
    rawPreview := ""
    logs := []
    contentType := none
    dataSize := none }

/-- JS length rendering of `data.length` (defined for arrays, `undefined`
for the other values the parser can produce). -/
def jsLengthStr : Json → String
  | .arr xs => toString xs.length
  | .str s => toString s.length
  | _ => "undefined"

/-- JS truthiness test used by `if (!url)`. -/
def jsFalsy : Json → Bool
  | .null => true
  | .undefined => true
  | .bool b => !b
  | .num n => n = 0
  | .str s => s = ""
  | .arr _ => false
  | .obj _ => false

/-- JS evaluation of `data[0]?.url`: the optional chain turns a missing
first element into `undefined` instead of a `TypeError`. -/
def evalFirstUrlOpt (data : Json) : Except String Json :=
  jsIndex0 data >>= fun x =>
    match x with
    | .null => .ok .undefined
    | .undefined => .ok .undefined
    | y => jsField "url" y

/-- The callbacks a `runParse` run can leave on the event loop. -/
inductive Cb where
  /-- 500 ms: `setStep(1)`, log. -/
  | step1
  /-- resumption of `await fetch(...)`. -/
  | net (selMode : String) (out : FetchOutcome) (bd : Nat) (env : Env)
  /-- 1000 ms: `setStep(2)`, response log, content type. -/
  | step2 (code : Nat) (ct : String)
  /-- 1800 ms: `setStep(3)`, log. -/
  | step3 (selMode : String)
  /-- resumption of `await response.json()` in `"json"` mode. -/
  | jsonDone (body : BodyRes) (env : Env)
  /-- resumption of `await response.text()` in `"text"` mode. -/
  | textDone (env : Env)
  /-- resumption of `await response.json()` in the `blob` branch. -/
  | blobJsonDone (body : BodyRes) (env : Env)
  /-- resumption of `await fetch(url)` for the image. -/
  | imgDone (out : FetchOutcome) (env : Env)
  /-- resumption of `await imgResponse.blob()`. -/
  | blobDone (env : Env)
  /-- 2400 ms: final update of the `"json"` mode. -/
  | finalJson (preview : String) (size : Nat)
  /-- 2400 ms: final update of the `"text"` mode. -/
  | finalText (txt : String) (size : Nat)
  /-- 2400 ms: final update of the `blob` mode. -/
  | finalBlob (objectUrl : String)

abbrev S := Sys St Cb

/-- The `catch (error)` block of `runParse`. -/
def catchErr (errMessage : String) (sys : S) : S :=
  withSt (fun s => { s with
    status := .error
    logs := addLog sys.now ("Error: " ++ errMessage) .error s.logs }) sys

/-- Interpretation of the callbacks of `runParse`. -/
def apply : Cb → S → S
  | .step1, sys =>
      withSt (fun s => { s with
        step := 1
        logs := addLog sys.now "Sending HTTP request to API..." .info s.logs }) sys
  | .net selMode out bd env, sys =>
      match out with
      | .reject _ errMessage => catchErr errMessage sys
      | .resolve code body =>
          let sys := schedule 1000 (.step2 code env.ct) sys
          if okStatus code then
            let sys := schedule 1800 (.step3 selMode) sys
            if selMode = "json" then
              schedule bd (.jsonDone body env) sys
            else if selMode = "text" then
              schedule bd (.textDone env) sys
            else
              schedule bd (.blobJsonDone body env) sys
          else
            catchErr ("Request failed: " ++ toString code) sys
  | .step2 code ct, sys =>
      withSt (fun s => { s with
        step := 2
        contentType := some ct
        logs := addLog sys.now ("Content-Type: " ++ ct) .info
          (addLog sys.now ("Response received with status: " ++ toString code)
            .success s.logs) }) sys
  | .step3 selMode, sys =>
      withSt (fun s => { s with
        step := 3
        logs := addLog sys.now
          ("Calling response." ++ selMode ++ "() to parse body...") .info s.logs }) sys
  | .jsonDone body env, sys =>
      match body with
      | .invalid errMessage => catchErr errMessage sys
      | .json v =>
          let sys := withSt (fun s => { s with
            dataSize := some env.previewSize
            logs := addLog sys.now ("Parsed " ++ jsLengthStr v ++ " item(s) from response")
              .info (addLog sys.now "JSON parsing successful" .success s.logs) }) sys
          schedule 2400 (.finalJson env.preview env.previewSize) sys
  | .textDone env, sys =>
      let size := env.txt.utf8ByteSize
      let sys := withSt (fun s => { s with
        dataSize := some size
        logs := addLog sys.now ("Retrieved " ++ toString env.txt.length ++ " characters")
          .info (addLog sys.now "Text parsing successful" .success s.logs) }) sys
      schedule 2400 (.finalText env.txt size) sys
  | .blobJsonDone body env, sys =>
      match body with
      | .invalid errMessage => catchErr errMessage sys
      | .json v =>
          match evalFirstUrlOpt v with
          | .error e => catchErr e sys
          | .ok url =>
              if jsFalsy url then catchErr "No image URL in response" sys
              else
                let sys := withSt (fun s => { s with
                  logs := addLog sys.now "Blob concept: Fetching image as binary data..."
                    .info s.logs }) sys
                schedule env.imgDelay (.imgDone env.imgOut env) sys
  | .imgDone out env, sys =>
      match out with
      | .reject _ errMessage => catchErr errMessage sys
      | .resolve _ _ => schedule env.blobDelay (.blobDone env) sys
  | .blobDone env, sys =>
      let sys := withSt (fun s => { s with
        dataSize := some env.blobSize
        logs := addLog sys.now ("Blob type: " ++ env.blobType) .info
          (addLog sys.now ("Blob size: " ++ env.blobKb ++ " KB") .info
            (addLog sys.now "Image blob created successfully" .success s.logs)) }) sys
      schedule 2400 (.finalBlob env.objectUrl) sys
  | .finalJson preview size, sys =>
      withSt (fun s => { s with
        status := .success
        step := 4
        rawPreview := preview
        logs := addLog sys.now ("Data size: " ++ toString size ++ " bytes")
          .info s.logs }) sys
  | .finalText txt size, sys =>
      withSt (fun s => { s with
        status := .success
        step := 4
        rawPreview := txt
        logs := addLog sys.now ("Data size: " ++ toString size ++ " bytes")
          .info s.logs }) sys
  | .finalBlob objectUrl, sys =>
      withSt (fun s => { s with
        status := .success
        step := 4
        imageUrl := some objectUrl }) sys

/-- The synchronous part of `runParse(selectedMode)` up to the first `await`. -/
def start (selMode : String) (tNet bd : Nat) (out : FetchOutcome) (env : Env)
    (sys : S) : S :=
  let sys := withSt reset sys
  let sys := withSt (fun s => { s with mode := selMode, status := .loading }) sys
  let sys := withSt (fun s => { s with
    logs := addLog sys.now
      ("Starting response parsing with ." ++ selMode ++ "() method") .info s.logs }) sys
  let sys := schedule 500 .step1 sys
  schedule tNet (.net selMode out bd env) sys

/-- A parsing-method card: `onClick={() => setMode(m)}`. -/
def clickMode (m : String) (sys : S) : S :=
  withSt (fun s => { s with mode := m }) sys

/-- The "Run" button: `onClick={() => runParse(mode)}` with
`disabled={status === "loading"}`. -/
def clickRun (tNet bd : Nat) (out : FetchOutcome) (env : Env) (sys : S) : S :=
  if sys.st.status = .loading then sys
  else start sys.st.mode tNet bd out env sys

/-- The "Reset" button: `onClick={reset}`; no timer is cancelled. -/
def clickReset (sys : S) : S :=
  withSt reset sys

/-- Fresh mount of the page. -/
def initSys : S := ⟨0, 0, [], init, 0⟩

end RP

/-! ## `UseHook.jsx`

`startAnimation` stores every timer id it creates in `timeoutsRef` and
begins by `clearTimeout`-ing every stored id; the `useEffect` cleanup does
the same on unmount.  Timer ids are modelled explicitly; each pending task
additionally records (as a proof annotation) the index `gen` of the
`startAnimation` call that created it. -/

namespace UH

/-- The three `useState` hooks of `UseHookPage`. -/
structure St where
  animationStep : Nat
  isAnimating : Bool
  selectedPath : String
deriving DecidableEq

/-- Callbacks of the animation timers. -/
inductive Cb where
  /-- `setAnimationStep(idx + 2)`. -/
  | setStep (n : Nat)
  /-- `setIsAnimating(false)` (the 7000 ms timer). -/
  | endAnim
deriving DecidableEq

/-- A pending timer: its `setTimeout` id, fire time, creating
`startAnimation` call (annotation) and callback. -/
structure Tm where
  id : Nat
  time : Nat
  gen : Nat
  cb : Cb
deriving DecidableEq

/-- The page runtime: clock, fresh-id counter, count of `startAnimation`
calls so far, the `timeoutsRef.current` id list, pending timers, state. -/
structure Rt where
  now : Nat
  nextId : Nat
  gen : Nat
  timeoutsRef : List Nat
  tasks : List Tm
  st : St
deriving DecidableEq

/-- Fresh mount. -/
def initRt : Rt := ⟨0, 0, 0, [], [], ⟨0, false, "success"⟩⟩

/-- `setTimeout(cb, delay)` followed by `timeoutsRef.current.push(id)`. -/
def sched (delay : Nat) (cb : Cb) (rt : Rt) : Rt :=
  { rt with
    nextId := rt.nextId + 1
    timeoutsRef := rt.timeoutsRef ++ [rt.nextId]
    tasks := rt.tasks ++ [⟨rt.nextId, rt.now + delay, rt.gen, cb⟩] }

/-- `timeoutsRef.current.forEach(clearTimeout)`: removes every pending
timer whose id is stored in the ref (clearing an already-fired id is a
no-op, which the filter models for free). -/
def clearStored (rt : Rt) : Rt :=
  { rt with tasks := rt.tasks.filter (fun t => !rt.timeoutsRef.contains t.id) }

/-- `startAnimation(path)`: clears all stored timers, resets the ref,
sets the path, `isAnimating`, step 1, and schedules the five step timers
(1200/2400/3600/4800/6000 ms, steps 2–6) and the 7000 ms end timer. -/
def startAnimation (path : String) (rt : Rt) : Rt :=
  let rt := clearStored rt
  let rt := { rt with timeoutsRef := [], gen := rt.gen + 1 }
  let rt := { rt with st := { rt.st with
    selectedPath := path
    isAnimating := true
    animationStep := 1 } }
  let rt := sched 1200 (.setStep 2) rt
  let rt := sched 2400 (.setStep 3) rt
  let rt := sched 3600 (.setStep 4) rt
  let rt := sched 4800 (.setStep 5) rt
  let rt := sched 6000 (.setStep 6) rt
  sched 7000 .endAnim rt

/-- One of the two path buttons: `onClick={() => startAnimation(path)}`
with `disabled={isAnimating}`. -/
def clickStart (path : String) (rt : Rt) : Rt :=
  if rt.st.isAnimating then rt else startAnimation path rt

/-- A pending timer fires: it is removed and its callback runs. -/
def fireTm (t : Tm) (rt : Rt) : Rt :=
  { rt with
    now := max rt.now t.time
    tasks := rt.tasks.erase t
    st :=
      match t.cb with
      | .setStep n => { rt.st with animationStep := n }
      | .endAnim => { rt.st with isAnimating := false } }

/-- The `useEffect` cleanup on unmount:
`timeoutsRef.current.forEach(clearTimeout)`. -/
def cleanup (rt : Rt) : Rt :=
  clearStored rt

/-- The states the mounted page can reach: fresh mount, clicking a path
button, or a pending timer firing. -/
inductive Reach : Rt → Prop where
  | init : Reach initRt
  | start (path : String) {rt : Rt} : Reach rt → Reach (clickStart path rt)
  | fire (t : Tm) {rt : Rt} : Reach rt → t ∈ rt.tasks → Reach (fireTm t rt)

end UH

/-! ### Pending-timer invariant of the `use()`-hook page

In every reachable state, every pending timer belongs to the most recent
`startAnimation` call and its id is stored in `timeoutsRef` (so the next
`startAnimation` or the unmount cleanup cancels it). -/
theorem uh_pending_inv {rt : UH.Rt} (h : UH.Reach rt) :
    ∀ t ∈ rt.tasks, t.gen = rt.gen ∧ t.id ∈ rt.timeoutsRef := by
  induction h with
  | init => simp [UH.initRt]
  | start path hr ih =>
      unfold UH.clickStart
      split
      · exact ih
      · have hnil : ∀ rt' : UH.Rt, (∀ t ∈ rt'.tasks, t.id ∈ rt'.timeoutsRef) →
            rt'.tasks.filter (fun t => !rt'.timeoutsRef.contains t.id) = [] := by
          intro rt' hall
          rw [List.filter_eq_nil_iff]
          intro t ht
          simp [hall t ht]
        rename_i rt hr2
        have h0 := hnil _ (fun t ht => (ih t ht).2)
        simp only [UH.startAnimation, UH.clearStored, UH.sched, List.append_nil,
          List.nil_append, List.mem_append, List.mem_filter, List.mem_singleton,
          List.mem_cons, List.not_mem_nil, or_false, Bool.not_eq_true']
        intro t ht
        rcases ht with ((((((⟨htm, hid⟩ | h) | h) | h) | h) | h) | h) <;>
          first
            | exact absurd (ih t htm).2 (by simpa using hid)
            | (subst h; simp)
  | fire t hr hmem ih =>
      intro u hu
      exact ih u (List.mem_of_mem_erase hu)

/-! ## Claims -/

/-- C1: On every demo page with a Reset action (`FetchBasics`,
`ErrorHandling`, `PromisesAsync`, `XhrLegacy`, `RequestConfig`,
`ResponseParsing`), calling `reset()` from any prior state leaves `status`
idle, `step` 0, the result fields (image URL / response data / message /
error details / parsed preview) cleared, and the log list empty. -/
theorem claim_c1_reset_restores_idle :
    (∀ s : FB.St, (FB.reset s).status = .idle ∧ (FB.reset s).step = 0 ∧
      (FB.reset s).imageUrl = none ∧ (FB.reset s).responseData = none ∧
      (FB.reset s).logs = []) ∧
    (∀ s : EH.St, (EH.reset s).status = .idle ∧ (EH.reset s).step = 0 ∧
      (EH.reset s).message = "" ∧ (EH.reset s).errorDetails = none ∧
      (EH.reset s).responseStatus = none ∧ (EH.reset s).logs = []) ∧
    (∀ s : PA.St, (PA.reset s).status = .idle ∧ (PA.reset s).step = 0 ∧
      (PA.reset s).imageUrl = none ∧ (PA.reset s).executionTime = none ∧
      (PA.reset s).logs = []) ∧
    (∀ s : XL.St, (XL.reset s).status = .idle ∧ (XL.reset s).step = 0 ∧
      (XL.reset s).imageUrl = none ∧ (XL.reset s).logs = []) ∧
    (∀ s : RC.St, (RC.reset s).status = .idle ∧ (RC.reset s).step = 0 ∧
      (RC.reset s).responseStatus = none ∧ (RC.reset s).configDetails = ⟨none, none, none⟩ ∧
      (RC.reset s).logs = []) ∧
    (∀ s : RP.St, (RP.reset s).status = .idle ∧ (RP.reset s).step = 0 ∧
      (RP.reset s).imageUrl = none ∧ (RP.reset s).rawPreview = "" ∧
      (RP.reset s).contentType = none ∧ (RP.reset s).dataSize = none ∧
      (RP.reset s).logs = []) := by
  refine ⟨fun s => ?_, fun s => ?_, fun s => ?_, fun s => ?_, fun s => ?_, fun s => ?_⟩ <;>
    simp [FB.reset, EH.reset, PA.reset, XL.reset, RC.reset, RP.reset]

/-- C2 counterexample: `reset()` cancels no pending narration timer.  On
`FetchBasics`, start a run with a slow network (5000 ms), click Reset at
once (state is back to `step = 0`, empty logs), then let the event loop
fire the pending 500 ms narration timer: `step` becomes 1 and a log entry
appears — a callback scheduled before the reset mutates state after it. -/
theorem claim_c2_counterexample :
    ((FB.clickReset (FB.clickRun 5000 10 (.resolve 200 (.json (.arr []))) FB.initSys)).st.step = 0 ∧
     (FB.clickReset (FB.clickRun 5000 10 (.resolve 200 (.json (.arr []))) FB.initSys)).st.logs = []) ∧
    (execF FB.apply 1 (FB.clickReset
        (FB.clickRun 5000 10 (.resolve 200 (.json (.arr []))) FB.initSys))).st.step = 1 ∧
    (execF FB.apply 1 (FB.clickReset
        (FB.clickRun 5000 10 (.resolve 200 (.json (.arr []))) FB.initSys))).st.logs =
      [⟨"Browser sending HTTP request to API...", .info, 500⟩] := by
  refine ⟨⟨rfl, rfl⟩, rfl, rfl⟩

/-- C2 amended: `reset()` restores the state fields, but stores no timer
handles and cancels nothing: on every fetch-demo page the pending agenda is
untouched by Reset, and a narration callback scheduled before the reset
still fires and mutates `step` and `logs` afterwards.  (Only the
`use()`-hook page cancels its stored timers, in `startAnimation` and in the
unmount cleanup.) -/
theorem claim_c2_amended_reset_cancels_no_timer :
    (∀ sys : FB.S, (FB.clickReset sys).tasks = sys.tasks ∧
      (FB.clickReset sys).st = FB.reset sys.st) ∧
    (∀ sys : EH.S, (EH.clickReset sys).tasks = sys.tasks ∧
      (EH.clickReset sys).st = EH.reset sys.st) ∧
    (∀ sys : PA.S, (PA.clickReset sys).tasks = sys.tasks ∧
      (PA.clickReset sys).st = PA.reset sys.st) ∧
    (∀ sys : XL.S, (XL.clickReset sys).tasks = sys.tasks ∧
      (XL.clickReset sys).st = XL.reset sys.st) ∧
    (∀ sys : RC.S, (RC.clickReset sys).tasks = sys.tasks ∧
      (RC.clickReset sys).st = RC.reset sys.st) ∧
    (∀ sys : RP.S, (RP.clickReset sys).tasks = sys.tasks ∧
      (RP.clickReset sys).st = RP.reset sys.st) ∧
    (∀ sys : FB.S, (FB.apply .step1 (FB.clickReset sys)).st.step = 1 ∧
      (FB.apply .step1 (FB.clickReset sys)).st.logs ≠ []) := by
  refine ⟨fun sys => ⟨rfl, rfl⟩, fun sys => ⟨rfl, rfl⟩, fun sys => ⟨rfl, rfl⟩,
    fun sys => ⟨rfl, rfl⟩, fun sys => ⟨rfl, rfl⟩, fun sys => ⟨rfl, rfl⟩, fun sys => ⟨rfl, ?_⟩⟩
  simp [FB.apply, FB.clickReset, withSt, addLog, FB.reset]

/-- C3: On every demo page, the Run trigger is disabled while
`status == loading` (resp. `isAnimating` on the `use()`-hook page), so
invoking it then is a no-op: no state change, no new timer, no log entry. -/
theorem claim_c3_run_noop_while_loading :
    (∀ (tNet jd : Nat) (out : FetchOutcome) (sys : FB.S),
      sys.st.status = .loading → FB.clickRun tNet jd out sys = sys) ∧
    (∀ (tNet bd : Nat) (out : FetchOutcome) (pm : String) (sys : EH.S),
      sys.st.status = .loading → EH.clickRun tNet bd out pm sys = sys) ∧
    (∀ (tNet jd : Nat) (out : FetchOutcome) (sys : PA.S),
      sys.st.status = .loading → PA.clickRun tNet jd out sys = sys) ∧
    (∀ (tNet jd : Nat) (out : FetchOutcome) (sys : XL.S),
      sys.st.status = .loading → XL.clickRun tNet jd out sys = sys) ∧
    (∀ (tNet jd : Nat) (out : FetchOutcome) (sys : RC.S),
      sys.st.status = .loading → RC.clickRun tNet jd out sys = sys) ∧
    (∀ (tNet bd : Nat) (out : FetchOutcome) (env : RP.Env) (sys : RP.S),
      sys.st.status = .loading → RP.clickRun tNet bd out env sys = sys) ∧
    (∀ (path : String) (rt : UH.Rt),
      rt.st.isAnimating = true → UH.clickStart path rt = rt) := by
  refine ⟨?_, ?_, ?_, ?_, ?_, ?_, ?_⟩ <;>
    intros <;>
    simp_all [FB.clickRun, EH.clickRun, PA.clickRun, XL.clickRun, RC.clickRun,
      RP.clickRun, UH.clickStart]

/-- C3 witness: on each page, a concrete loading-state system is left
exactly as it is by the Run trigger. -/
theorem claim_c3_witness :
    ({ FB.initSys with st := { FB.init with status := .loading } } : FB.S).st.status = .loading ∧
    FB.clickRun 1 1 (.reject "TypeError" "Failed to fetch")
      { FB.initSys with st := { FB.init with status := .loading } } =
      { FB.initSys with st := { FB.init with status := .loading } } ∧
    EH.clickRun 1 1 (.reject "TypeError" "Failed to fetch") ""
      { EH.initSys with st := { EH.init with status := .loading } } =
      { EH.initSys with st := { EH.init with status := .loading } } ∧
    PA.clickRun 1 1 (.reject "TypeError" "Failed to fetch")
      { PA.initSys with st := { PA.init with status := .loading } } =
      { PA.initSys with st := { PA.init with status := .loading } } ∧
    XL.clickRun 1 1 (.reject "TypeError" "Failed to fetch")
      { XL.initSys with st := { XL.init with status := .loading } } =
      { XL.initSys with st := { XL.init with status := .loading } } ∧
    RC.clickRun 1 1 (.reject "TypeError" "Failed to fetch")
      { RC.initSys with st := { RC.init with status := .loading } } =
      { RC.initSys with st := { RC.init with status := .loading } } ∧
    RP.clickRun 1 1 (.reject "TypeError" "Failed to fetch")
      ⟨"", "", "", 0, 0, .reject "" "", 0, 0, "", "", ""⟩
      { RP.initSys with st := { RP.init with status := .loading } } =
      { RP.initSys with st := { RP.init with status := .loading } } ∧
    UH.clickStart "success" { UH.initRt with st := { UH.initRt.st with isAnimating := true } } =
      { UH.initRt with st := { UH.initRt.st with isAnimating := true } } :=
  ⟨rfl,
   claim_c3_run_noop_while_loading.1 1 1 _ _ rfl,
   claim_c3_run_noop_while_loading.2.1 1 1 _ "" _ rfl,
   claim_c3_run_noop_while_loading.2.2.1 1 1 _ _ rfl,
   claim_c3_run_noop_while_loading.2.2.2.1 1 1 _ _ rfl,
   claim_c3_run_noop_while_loading.2.2.2.2.1 1 1 _ _ rfl,
   claim_c3_run_noop_while_loading.2.2.2.2.2.1 1 1 _ _ _ rfl,
   claim_c3_run_noop_while_loading.2.2.2.2.2.2 "success" _ rfl⟩

/-- Helper for C5: whatever the scenario, the user-facing string produced
by `getUserMessage` is never the raw technical string `"HTTP <code>"`
(every branch returns a fixed sentence that does not start with `'H'`). -/
theorem ne_http_raw (lit s : String) (hl : lit.data.headD ' ' ≠ 'H') :
    lit ≠ "HTTP " ++ s := by
  intro h
  apply hl
  rw [h]
  simp [String.data_append]

/-- Helper for C5 (continued): every branch of `getUserMessage` returns a
fixed sentence that does not start with `'H'`. -/
theorem getUserMessage_ne_raw (e : JsError) (m s : String) :
    getUserMessage e m ≠ "HTTP " ++ s := by
  unfold getUserMessage
  dsimp only
  split_ifs <;> exact ne_http_raw _ _ (by decide)

/-- C4: on `FetchBasics` and `PromisesAsync`, every run whose network call
resolves with a 2xx status and a valid JSON list whose first element has a
`url` field ends with `status = success`, the stored image URL equal to
that `url` value, and a `success`-kind entry in the log list — for every
network latency, body latency and selected pattern. -/
theorem claim_c4_success_run (tNet jd code : Nat) (hok : okStatus code = true)
    (e v : Json) (hurl : jsField "url" e = .ok v) (xs : List Json) (m : String) :
    ((FB.runToEnd tNet jd (.resolve code (.json (.arr (e :: xs))))).st.status = .success ∧
     (FB.runToEnd tNet jd (.resolve code (.json (.arr (e :: xs))))).st.imageUrl = some v ∧
     ∃ l ∈ (FB.runToEnd tNet jd (.resolve code (.json (.arr (e :: xs))))).st.logs,
       l.type = .success) ∧
    ((PA.runToEnd m tNet jd (.resolve code (.json (.arr (e :: xs))))).st.status = .success ∧
     (PA.runToEnd m tNet jd (.resolve code (.json (.arr (e :: xs))))).st.imageUrl = some v ∧
     ∃ l ∈ (PA.runToEnd m tNet jd (.resolve code (.json (.arr (e :: xs))))).st.logs,
       l.type = .success) := by
  obtain ⟨h1, h2, _, h4, _⟩ := fb_success_run tNet jd code hok e v hurl xs
  obtain ⟨g1, g2, _, g4, _⟩ := pa_success_run m tNet jd code hok e v hurl xs
  exact ⟨⟨h1, h2, h4⟩, ⟨g1, g2, g4⟩⟩

/-- C4 witness: a concrete 200 response carrying `[{"url": "cat.jpg"}]`. -/
theorem claim_c4_witness :
    okStatus 200 = true ∧
    jsField "url" (.obj [("url", .str "cat.jpg")]) = .ok (.str "cat.jpg") ∧
    (((FB.runToEnd 2000 10 (.resolve 200 (.json (.arr [.obj [("url", .str "cat.jpg")]])))).st.status
        = .success ∧
      (FB.runToEnd 2000 10 (.resolve 200 (.json (.arr [.obj [("url", .str "cat.jpg")]])))).st.imageUrl
        = some (.str "cat.jpg") ∧
      ∃ l ∈ (FB.runToEnd 2000 10
          (.resolve 200 (.json (.arr [.obj [("url", .str "cat.jpg")]])))).st.logs,
        l.type = .success) ∧
     ((PA.runToEnd "await" 2000 10
          (.resolve 200 (.json (.arr [.obj [("url", .str "cat.jpg")]])))).st.status = .success ∧
      (PA.runToEnd "await" 2000 10
          (.resolve 200 (.json (.arr [.obj [("url", .str "cat.jpg")]])))).st.imageUrl
        = some (.str "cat.jpg") ∧
      ∃ l ∈ (PA.runToEnd "await" 2000 10
          (.resolve 200 (.json (.arr [.obj [("url", .str "cat.jpg")]])))).st.logs,
        l.type = .success)) :=
  ⟨rfl, rfl, claim_c4_success_run 2000 10 200 rfl (.obj [("url", .str "cat.jpg")])
    (.str "cat.jpg") rfl [] "await"⟩

/-- C5: on `ErrorHandling`, every run whose network call resolves with a
non-2xx status ends with `status = error`, an `error`-tagged log entry
whose message ends with the numeric status code, the raw technical message
`"HTTP <code>"` retained in the error-details panel, and a user-facing
message that is a different string from that raw message — for every
scenario and latency. -/
theorem claim_c5_http_error_run (m : String) (tNet bd code : Nat) (body : BodyRes)
    (parseMsg : String) (hbad : okStatus code = false) :
    (EH.runToEnd m tNet bd (.resolve code body) parseMsg).st.status = .error ∧
    (∃ l ∈ (EH.runToEnd m tNet bd (.resolve code body) parseMsg).st.logs,
      l.type = .error ∧ ∃ p, l.message = p ++ toString code) ∧
    (EH.runToEnd m tNet bd (.resolve code body) parseMsg).st.errorDetails =
      some ⟨"Error", "HTTP " ++ toString code,
        getErrorType ⟨"Error", "HTTP " ++ toString code⟩ m⟩ ∧
    (EH.runToEnd m tNet bd (.resolve code body) parseMsg).st.message ≠
      "HTTP " ++ toString code := by
  obtain ⟨h1, h2, h3, h4, _⟩ := eh_httpError_run m tNet bd code body parseMsg hbad
  refine ⟨h1, ⟨_, h2, rfl, "HTTP Error detected: ", rfl⟩, h4, ?_⟩
  rw [h3]
  exact getUserMessage_ne_raw _ m _

/-- C5 witness: the simulated 404 of the `http` scenario. -/
theorem claim_c5_witness :
    okStatus 404 = false ∧
    ((EH.runToEnd "http" 700 10 (.resolve 404 (.json .null)) "").st.status = .error ∧
     (∃ l ∈ (EH.runToEnd "http" 700 10 (.resolve 404 (.json .null)) "").st.logs,
       l.type = .error ∧ ∃ p, l.message = p ++ toString 404) ∧
     (EH.runToEnd "http" 700 10 (.resolve 404 (.json .null)) "").st.errorDetails =
       some ⟨"Error", "HTTP " ++ toString 404,
         getErrorType ⟨"Error", "HTTP " ++ toString 404⟩ "http"⟩ ∧
     (EH.runToEnd "http" 700 10 (.resolve 404 (.json .null)) "").st.message ≠
       "HTTP " ++ toString 404) :=
  ⟨rfl, claim_c5_http_error_run "http" 700 10 404 (.json .null) "" rfl⟩

/-- C6: on `ErrorHandling`, the failure classification `getErrorType` is a
function of the selected scenario only — it never inspects the caught
error — mapping `network`/`http`/`parsing` to the three labels and
everything else to "Unknown Error"; and concretely, the parsing scenario
(whose forced `JSON.parse` of a syntactically invalid payload throws a
`SyntaxError`) ends in `status = error` classified "Parsing Error", not
"Network Error". -/
theorem claim_c6_classification_by_scenario :
    (∀ (e e' : JsError) (m : String), getErrorType e m = getErrorType e' m) ∧
    (∀ e : JsError, getErrorType e "network" = "Network Error" ∧
      getErrorType e "http" = "HTTP Error" ∧
      getErrorType e "parsing" = "Parsing Error") ∧
    (∀ (e : JsError) (m : String), m ≠ "network" → m ≠ "http" → m ≠ "parsing" →
      getErrorType e m = "Unknown Error") ∧
    ((EH.runToEnd "parsing" 700 50 (.resolve 200 (.json (.arr [])))
        "Unexpected token i in JSON at position 0").st.status = .error ∧
     (EH.runToEnd "parsing" 700 50 (.resolve 200 (.json (.arr [])))
        "Unexpected token i in JSON at position 0").st.errorDetails =
       some ⟨"SyntaxError", "Unexpected token i in JSON at position 0", "Parsing Error"⟩ ∧
     "Parsing Error" ≠ "Network Error") := by
  refine ⟨fun e e' m => rfl, fun e => ⟨rfl, rfl, rfl⟩, fun e m h1 h2 h3 => ?_,
    rfl, rfl, by decide⟩
  simp [getErrorType, h1, h2, h3]

/-- C6 witness: a scenario string outside the three labelled ones is
classified "Unknown Error". -/
theorem claim_c6_witness :
    ("success" : String) ≠ "network" ∧ ("success" : String) ≠ "http" ∧
    ("success" : String) ≠ "parsing" ∧
    getErrorType ⟨"TypeError", "Failed to fetch"⟩ "success" = "Unknown Error" :=
  ⟨by decide, by decide, by decide,
   claim_c6_classification_by_scenario.2.2.1 ⟨"TypeError", "Failed to fetch"⟩ "success"
     (by decide) (by decide) (by decide)⟩

/-- C7: the claim "a demo run never throws an uncaught exception outward"
fails on the code: a 200 response whose JSON body is the empty list makes
`setImageUrl(data[0].url)` — which runs inside the final `setTimeout`
callback, outside the `try`/`catch` — throw an uncaught `TypeError` on
both `FetchBasics` and `XhrLegacy`; the run is left stuck in `loading`
instead of being converted to `status = error`. -/
theorem claim_c7_empty_list_uncaught_throw :
    (FB.runToEnd 2000 10 (.resolve 200 (.json (.arr [])))).uncaught = 1 ∧
    (FB.runToEnd 2000 10 (.resolve 200 (.json (.arr [])))).st.status = .loading ∧
    ¬ (FB.runToEnd 2000 10 (.resolve 200 (.json (.arr [])))).st.status = .error ∧
    (XL.runToEnd 2000 10 (.resolve 200 (.json (.arr [])))).uncaught = 1 ∧
    (XL.runToEnd 2000 10 (.resolve 200 (.json (.arr [])))).st.status = .loading ∧
    ¬ (XL.runToEnd 2000 10 (.resolve 200 (.json (.arr [])))).st.status = .error := by
  refine ⟨rfl, rfl, by decide, rfl, rfl, by decide⟩

/-- A task is always in the agenda it was just inserted into. -/
theorem mem_insertTask {κ : Type} (t : PTask κ) : ∀ l : List (PTask κ), t ∈ insertTask t l
  | [] => by simp [insertTask]
  | u :: us => by
      simp only [insertTask]
      split
      · exact List.mem_cons_of_mem _ (mem_insertTask t us)
      · exact List.mem_cons_self _ _

/-- C8: on `FetchBasics` and `PromisesAsync`, `status` is set to `success`
only by the final 3200 ms narration timer, never at the moment the network
promise resolves: the fetch resumption of an ok response and the
`response.json()` resumption leave `status` untouched (the latter schedules
the final callback 3200 ms after its own fire time), the narration timers
leave `status` untouched, and only the final callback sets `success`. -/
theorem claim_c8_success_only_after_final_delay :
    (∀ (sys : FB.S) (code : Nat) (body : BodyRes) (jd : Nat), okStatus code = true →
      (FB.apply (.net (.resolve code body) jd) sys).st.status = sys.st.status) ∧
    (∀ (sys : FB.S) (v : Json),
      (FB.apply (.jsonDone (.json v)) sys).st.status = sys.st.status ∧
      (⟨sys.now + 3200, sys.nextSeq + 1, FB.Cb.final v⟩ : PTask FB.Cb) ∈
        (FB.apply (.jsonDone (.json v)) sys).tasks) ∧
    (∀ sys : FB.S, (FB.apply .step1 sys).st.status = sys.st.status ∧
      (FB.apply .step2 sys).st.status = sys.st.status ∧
      (FB.apply .step3 sys).st.status = sys.st.status) ∧
    (∀ (sys : FB.S) (v u : Json), evalFirstUrl v = .ok u →
      (FB.apply (.final v) sys).st.status = .success) ∧
    (∀ (sys : PA.S) (m : String) (code : Nat) (body : BodyRes) (jd st0 : Nat),
      okStatus code = true →
      (PA.apply (.net m (.resolve code body) jd st0) sys).st.status = sys.st.status) ∧
    (∀ (sys : PA.S) (v : Json) (st0 : Nat),
      (PA.apply (.jsonDone (.json v) st0) sys).st.status = sys.st.status ∧
      (⟨sys.now + 3200, sys.nextSeq, PA.Cb.final v st0⟩ : PTask PA.Cb) ∈
        (PA.apply (.jsonDone (.json v) st0) sys).tasks) ∧
    (∀ (sys : PA.S) (m : String), (PA.apply .step1 sys).st.status = sys.st.status ∧
      (PA.apply .step2 sys).st.status = sys.st.status ∧
      (PA.apply (.step3 m) sys).st.status = sys.st.status) ∧
    (∀ (sys : PA.S) (v u : Json) (st0 : Nat), evalFirstUrl v = .ok u →
      (PA.apply (.final v st0) sys).st.status = .success) := by
  refine ⟨fun sys code body jd hok => ?_,
    fun sys v => ⟨rfl, ?_⟩,
    fun sys => ⟨rfl, rfl, rfl⟩,
    fun sys v u hu => ?_,
    fun sys m code body jd st0 hok => ?_,
    fun sys v st0 => ⟨rfl, ?_⟩,
    fun sys m => ⟨rfl, rfl, rfl⟩,
    fun sys v u st0 hu => ?_⟩
  · simp [FB.apply, hok, schedule, withSt]
  · simp only [FB.apply, schedule, withSt]
    exact mem_insertTask _ _
  · simp [FB.apply, hu, withSt]
  · simp [PA.apply, hok, schedule, withSt]
  · simp only [PA.apply, schedule, withSt]
    exact mem_insertTask _ _
  · simp [PA.apply, hu, withSt]

/-- C8 witness: concrete fetch/json resumptions and final callbacks on
fresh systems. -/
theorem claim_c8_witness :
    okStatus 200 = true ∧
    evalFirstUrl (.arr [.obj [("url", .str "cat.jpg")]]) = .ok (.str "cat.jpg") ∧
    (FB.apply (.net (.resolve 200 (.json (.arr []))) 10) FB.initSys).st.status =
      FB.initSys.st.status ∧
    (FB.apply (.final (.arr [.obj [("url", .str "cat.jpg")]])) FB.initSys).st.status =
      .success ∧
    (PA.apply (.final (.arr [.obj [("url", .str "cat.jpg")]]) 0) PA.initSys).st.status =
      .success :=
  ⟨rfl, rfl,
   claim_c8_success_only_after_final_delay.1 FB.initSys 200 (.json (.arr [])) 10 rfl,
   claim_c8_success_only_after_final_delay.2.2.2.1 FB.initSys _ (.str "cat.jpg") rfl,
   claim_c8_success_only_after_final_delay.2.2.2.2.2.2.2 PA.initSys _ (.str "cat.jpg") 0 rfl⟩

/-- C9: running the same successful `FetchBasics` scenario twice with a
Reset click in between yields two independent runs: the first completed
run leaves no pending timer, and at the start of the second run's
`loading` phase the log list holds only the fresh start entry (no entry of
the first run) and the first run's image URL and response data are gone. -/
theorem claim_c9_two_runs_independent (tNet jd code tNet2 jd2 : Nat)
    (out2 : FetchOutcome) (hok : okStatus code = true)
    (e v : Json) (hurl : jsField "url" e = .ok v) (xs : List Json) :
    (FB.runToEnd tNet jd (.resolve code (.json (.arr (e :: xs))))).tasks = [] ∧
    (FB.clickRun tNet2 jd2 out2 (FB.clickReset
        (FB.runToEnd tNet jd (.resolve code (.json (.arr (e :: xs))))))).st.status =
      .loading ∧
    (FB.clickRun tNet2 jd2 out2 (FB.clickReset
        (FB.runToEnd tNet jd (.resolve code (.json (.arr (e :: xs))))))).st.logs =
      [⟨"Starting fetch request...", .info,
        (FB.runToEnd tNet jd (.resolve code (.json (.arr (e :: xs))))).now⟩] ∧
    (FB.clickRun tNet2 jd2 out2 (FB.clickReset
        (FB.runToEnd tNet jd (.resolve code (.json (.arr (e :: xs))))))).st.imageUrl =
      none ∧
    (FB.clickRun tNet2 jd2 out2 (FB.clickReset
        (FB.runToEnd tNet jd (.resolve code (.json (.arr (e :: xs))))))).st.responseData =
      none ∧
    (FB.clickRun tNet2 jd2 out2 (FB.clickReset
        (FB.runToEnd tNet jd (.resolve code (.json (.arr (e :: xs))))))).st.step = 0 := by
  obtain ⟨-, -, htasks, -, -⟩ := fb_success_run tNet jd code hok e v hurl xs
  refine ⟨htasks, ?_, ?_, ?_, ?_, ?_⟩ <;>
    simp [FB.clickRun, FB.clickReset, FB.start, FB.reset, withSt, schedule, addLog]

/-- C9 witness: the concrete successful scenario of the C4 witness, reset,
then run again. -/
theorem claim_c9_witness :
    okStatus 200 = true ∧
    (FB.runToEnd 2000 10 (.resolve 200 (.json (.arr [.obj [("url", .str "cat.jpg")]])))).tasks
      = [] ∧
    (FB.clickRun 3000 20 (.reject "TypeError" "Failed to fetch") (FB.clickReset
        (FB.runToEnd 2000 10
          (.resolve 200 (.json (.arr [.obj [("url", .str "cat.jpg")]])))))).st.logs =
      [⟨"Starting fetch request...", .info,
        (FB.runToEnd 2000 10
          (.resolve 200 (.json (.arr [.obj [("url", .str "cat.jpg")]])))).now⟩] ∧
    (FB.clickRun 3000 20 (.reject "TypeError" "Failed to fetch") (FB.clickReset
        (FB.runToEnd 2000 10
          (.resolve 200 (.json (.arr [.obj [("url", .str "cat.jpg")]])))))).st.imageUrl =
      none := by
  obtain ⟨h1, -, h3, h4, -, -⟩ := claim_c9_two_runs_independent 2000 10 200 3000 20
    (.reject "TypeError" "Failed to fetch") rfl (.obj [("url", .str "cat.jpg")])
    (.str "cat.jpg") rfl []
  exact ⟨rfl, h1, h3, h4⟩

/-- Helper for C10: a `startAnimation` call cancels every stored timer, so
(whenever all pending ids are stored, as the invariant guarantees) every
timer pending after the call belongs to the call itself. -/
theorem uh_start_fresh (path : String) (rt : UH.Rt)
    (hid : ∀ t ∈ rt.tasks, t.id ∈ rt.timeoutsRef) :
    ∀ t ∈ (UH.startAnimation path rt).tasks, t.gen = rt.gen + 1 := by
  simp only [UH.startAnimation, UH.clearStored, UH.sched, List.append_nil,
    List.nil_append, List.mem_append, List.mem_filter, List.mem_singleton,
    List.mem_cons, List.not_mem_nil, or_false, Bool.not_eq_true']
  intro t ht
  rcases ht with ((((((⟨htm, hid2⟩ | h) | h) | h) | h) | h) | h) <;>
    first
      | exact absurd (hid t htm) (by simpa using hid2)
      | (subst h; rfl)

/-- C10: in every reachable state of the `use()`-hook page, every pending
timer belongs to the most recent `startAnimation` call (so only that run
can advance the animation step counter), any further `startAnimation` call
leaves only its own timers pending, and the unmount cleanup cancels every
outstanding timer. -/
theorem claim_c10_latest_run_owns_timers (rt : UH.Rt) (h : UH.Reach rt) :
    (∀ t ∈ rt.tasks, t.gen = rt.gen ∧ t.id ∈ rt.timeoutsRef) ∧
    (∀ path : String, ∀ t ∈ (UH.startAnimation path rt).tasks, t.gen = rt.gen + 1) ∧
    (UH.cleanup rt).tasks = [] := by
  have inv := uh_pending_inv h
  refine ⟨inv, fun path => uh_start_fresh path rt (fun t ht => (inv t ht).2), ?_⟩
  simp only [UH.cleanup, UH.clearStored]
  rw [List.filter_eq_nil_iff]
  intro t ht
  simp [(inv t ht).2]

/-- C10 witness: after one animation click from a fresh mount, the unmount
cleanup leaves no pending timer. -/
theorem claim_c10_witness :
    (UH.cleanup (UH.clickStart "success" UH.initRt)).tasks = [] :=
  (claim_c10_latest_run_owns_timers (UH.clickStart "success" UH.initRt)
    (UH.Reach.start "success" UH.Reach.init)).2.2
